import Mathlib

/-!
Verification development for the Mistral document-intelligence core
(`docsray/providers/mistral.py` and its tool layer).

The Python code manipulates values parsed from JSON (`json.loads`), so the
embedding is built on an inductive type `JValue` of JSON values.  JSON
numbers (Python ints and floats) are modelled as rationals; the JSON parser
itself (`json.loads`) is an external collaborator of this core and is
therefore passed in as a parameter `parse : String → Except String JValue`
(`Except.error` models a raised `json.JSONDecodeError`, carrying its
message).  Python exceptions escaping a modelled function are made explicit
with `Option`/`Except` return types: `none` / `.error` means the Python code
raised at that point.
-/

/-- A JSON value as produced by `json.loads`:  `null`, booleans, numbers
(ints and floats, modelled as rationals), strings, arrays and objects.
Objects keep the key/value pairs in insertion order; parsed JSON objects
have pairwise-distinct keys. -/
inductive JValue where
  | null : JValue
  | bool : Bool → JValue
  | num : Rat → JValue
  | str : String → JValue
  | arr : List JValue → JValue
  | obj : List (String × JValue) → JValue

/-- `d.get(key)` on a parsed-JSON dict (first match; parsed objects have
distinct keys, so this agrees with Python's dict lookup). -/
def lookupKV : List (String × JValue) → String → Option JValue
  | [], _ => none
  | (k, v) :: rest, key => if k = key then some v else lookupKV rest key

/-- Python `key in d` on a dict. -/
def hasKey (kvs : List (String × JValue)) (key : String) : Bool :=
  (lookupKV kvs key).isSome

/-- Python iteration `for x in v` over a value of JSON origin: lists yield
their elements, strings yield their characters as one-character strings,
dicts yield their keys; `None`, booleans and numbers are not iterable and
raise `TypeError` (modelled as `none`). -/
def pyIter : JValue → Option (List JValue)
  | .arr xs => some xs
  | .str s => some (s.data.map (fun c => JValue.str (String.mk [c])))
  | .obj kvs => some (kvs.map (fun kv => JValue.str kv.1))
  | _ => none

/-- Python `str.strip()` whitespace test, over the characters Python treats
as whitespace that can appear in model output (space, tab, newline,
carriage return, vertical tab, form feed). -/
def pyIsSpace (c : Char) : Bool :=
  c = ' ' || c = '\t' || c = '\n' || c = '\r' || c = '\x0b' || c = '\x0c'

/-- Python `s.strip()`: drop leading and trailing whitespace. -/
def pyStrip (s : String) : String :=
  String.mk (((s.data.dropWhile pyIsSpace).reverse.dropWhile pyIsSpace).reverse)

/-! ## Classification result validation (`_validate_classification_result`) -/

/-- The label test of `_validate_classification_result`:
`item["label"] not in labels and item["label"] != "other"` rejects;
this is the *keep* condition.  A non-string label value compares unequal
to every string, so only strings can pass. -/
def labelOk (labels : List String) (v : JValue) : Bool :=
  match v with
  | .str s => labels.contains s || s == "other"
  | _ => false

/-- The chained comparison `0.0 <= item["confidence"] <= 1.0`.  Numbers
compare normally; Python booleans are integers 0/1 and hence always lie in
the range; every other value (null, string, list, dict) is not
order-comparable with a float and raises `TypeError` (`none`). -/
def confCmp : JValue → Option Bool
  | .num q => some (decide (0 ≤ q) && decide (q ≤ 1))
  | .bool _ => some true
  | _ => none

/-- One iteration of the validation loop in
`_validate_classification_result`: `some true` = the item is appended,
`some false` = the item is skipped (`continue`), `none` = the confidence
comparison raised `TypeError`.  Checks run in source order: dict check,
required keys, label membership, confidence range. -/
def checkItem (labels : List String) (item : JValue) : Option Bool :=
  match item with
  | .obj kvs =>
    if !(hasKey kvs "page" && hasKey kvs "label" && hasKey kvs "confidence") then
      some false
    else if !labelOk labels ((lookupKV kvs "label").getD .null) then
      some false
    else
      confCmp ((lookupKV kvs "confidence").getD .null)
  | _ => some false

/-- The `for item in result` loop of `_validate_classification_result`,
returning the `validated` list together with the `skipped` counter (the
counter feeds only logging).  A `TypeError` raised on any item aborts the
whole loop (`none`). -/
def validateItemsLoop (labels : List String) : List JValue → Option (List JValue × Nat)
  | [] => some ([], 0)
  | it :: rest =>
    match checkItem labels it with
    | none => none
    | some true => (validateItemsLoop labels rest).map (fun r => (it :: r.1, r.2))
    | some false => (validateItemsLoop labels rest).map (fun r => (r.1, r.2 + 1))

/-- `_validate_classification_result(result, pages, labels)` from
`docsray/providers/mistral.py` (the `pages` argument is unused by the
function body and omitted).  If `result` is not a list: a dict is replaced
by `result.get("labels", [])`, anything else by `[]`.  The resulting value
is then iterated with Python `for` semantics (`pyIter`); iterating a
non-iterable `labels` value, or a `TypeError` inside the per-item
confidence comparison, raises out of the validator (`none`). -/
def validate_classification_result (result : JValue) (labels : List String) :
    Option (List JValue) :=
  let work : JValue :=
    match result with
    | .arr xs => .arr xs
    | .obj kvs => (lookupKV kvs "labels").getD (.arr [])
    | _ => .arr []
  match pyIter work with
  | none => none
  | some items => (validateItemsLoop labels items).map (fun r => r.1)

/-! ## Extraction result validation (`_validate_extraction_result`) -/

/-- The keep condition of the extraction field loop: the entry is a dict
containing all of `name`, `value`, `confidence`.  No confidence-range
check. -/
def extractionFieldKeep (f : JValue) : Bool :=
  match f with
  | .obj kvs => hasKey kvs "name" && hasKey kvs "value" && hasKey kvs "confidence"
  | _ => false

/-- The `for field in fields` loop of `_validate_extraction_result`:
`validated_fields` plus the `skipped` counter.  Nothing in this loop can
raise. -/
def validateFieldsLoop : List JValue → List JValue × Nat
  | [] => ([], 0)
  | f :: fs =>
    let r := validateFieldsLoop fs
    if extractionFieldKeep f then (f :: r.1, r.2) else (r.1, r.2 + 1)

/-- The dict `{"fields": ..., "errors": ...}` returned by
`_validate_extraction_result`: a list of validated field values plus the
`errors` value (an arbitrary JSON value, passed through unchanged). -/
structure ExtractionResult where
  fields : List JValue
  errors : JValue

/-- `_validate_extraction_result(result, schema)` from
`docsray/providers/mistral.py` (the `schema` argument is unused by the
function body and omitted).  Non-dict input yields the fixed error shape;
otherwise `fields` defaults to `[]` when absent or not a list, and
`errors` defaults to `[]` when absent and is otherwise passed through
untouched. -/
def validate_extraction_result (result : JValue) : ExtractionResult :=
  match result with
  | .obj kvs =>
    let fields := (lookupKV kvs "fields").getD (.arr [])
    let errors := (lookupKV kvs "errors").getD (.arr [])
    let fieldsList : List JValue :=
      match fields with
      | .arr fs => fs
      | _ => []
    ⟨(validateFieldsLoop fieldsList).1, errors⟩
  | _ => ⟨[], .arr [.str "Invalid result format: expected dict"]⟩

/-! ## Transport model

The Mistral SDK client is an external collaborator.  One call to
`chat.complete_async` either raises (modelled `Except.error` with the
exception's string) or returns a response exposing `choices`, each with a
`message.content` that is a string or `None`. -/

structure MessageOut where
  content : Option String

structure ChoiceOut where
  message : MessageOut

structure Response where
  choices : List ChoiceOut

/-! ## Provider state and lifecycle (`MistralProvider`) -/

/-- The part of `MistralOCRConfig` that `initialize` inspects: the enabled
flag and the API key (`none` models Python `None`; the empty string is
also falsy).  Other config fields (model name, base URL) only flow into
the external client and affect no claim. -/
structure MistralConfig where
  enabled : Bool
  api_key : Option String

/-- Python truthiness of an optional string: `None` and `""` are falsy. -/
def strOptFalsy : Option String → Bool
  | none => true
  | some s => s == ""

/-- The mutable state of a `MistralProvider`: `config`, `_initialized` and
`_client` (the client itself is opaque, only its presence matters). -/
structure Provider where
  config : Option MistralConfig
  initialized : Bool
  client : Option Unit

/-- A fresh provider as built by `__init__`. -/
def freshProvider : Provider := ⟨none, false, none⟩

/-- A provider in the Ready state, for instantiating theorems. -/
def readyProvider : Provider := ⟨none, true, some ()⟩

/-- Outcome of `from mistralai import Mistral` followed by client
construction: success, `ImportError`, or an exception raised by the
constructor. -/
inductive ClientOutcome where
  | ok : ClientOutcome
  | importError : ClientOutcome
  | constructError : String → ClientOutcome

/-- `initialize` from `MistralProvider`: stores the config; a disabled
config or a falsy API key leaves `_initialized = False` without touching
the client; `ImportError` and constructor exceptions are caught, likewise
leaving `_initialized = False` with `_client` unassigned; on success the
client is stored and `_initialized = True`.  All paths return normally. -/
def initializeProvider (s : Provider) (config : MistralConfig)
    (outcome : ClientOutcome) : Provider :=
  let s := { s with config := some config }
  if !config.enabled then
    { s with initialized := false }
  else if strOptFalsy config.api_key then
    { s with initialized := false }
  else
    match outcome with
    | .ok => { s with client := some (), initialized := true }
    | .importError => { s with initialized := false }
    | .constructError _ => { s with initialized := false }

/-- `dispose` from `MistralProvider`: drops the client and clears the
initialized flag. -/
def dispose (s : Provider) : Provider :=
  { s with client := none, initialized := false }

/-! ## Prompt builders -/

/-- Python `str(value)` as used in the extraction prompt's f-string.
Scalars render as Python does (`None`, `True`/`False`, the string itself);
container renderings are abbreviated — they feed only prompt text, affect
no claim, and like Python's `str` they never raise. -/
def pyStr : JValue → String
  | .null => "None"
  | .bool b => if b then "True" else "False"
  | .num q => toString q
  | .str s => s
  | .arr _ => "[...]"
  | .obj _ => "\x7b...\x7d"

/-- `_build_classification_prompt(labels)`: a fixed template around
`', '.join(labels)`.  Total for a list of strings. -/
def build_classification_prompt (labels : List String) : String :=
  "You are analyzing a company\x27s annual report. Below is a list of pages " ++
  "with page numbers and text samples. Classify each page into one of " ++
  "these categories: " ++ String.intercalate ", " labels ++ ".\n\n" ++
  "IMPORTANT: You MUST return a JSON object with a \"labels\" array containing " ++
  "the classification results.\n\n" ++
  "Return JSON object with this exact format: " ++
  "\x7b\"labels\": [\x7b\"page\": int, \"label\": string, \"confidence\": float\x7d]\x7d.\n\n" ++
  "Rules:\n" ++
  "- Do not include EBITDA reconciliation pages under income_statement\n" ++
  "- Multi-page sections should have same label across consecutive pages\n" ++
  "- Use \x27other\x27 for unclassifiable pages\n" ++
  "- Confidence must be between 0.0 and 1.0\n" ++
  "- Return ONLY the JSON object, no other text"

/-- The list comprehension inside `_build_extraction_prompt`: one line per
field entry, reading `f['name']` and `f['type']` (a missing key raises
`KeyError`; a non-dict entry raises `TypeError`) and `f.get('pattern',
'any')`.  Fields are processed left to right; the first failure raises. -/
def fieldLines : List JValue → Except String (List String)
  | [] => .ok []
  | f :: fs =>
    match f with
    | .obj fkvs =>
      match lookupKV fkvs "name" with
      | none => .error "KeyError: name"
      | some n =>
        match lookupKV fkvs "type" with
        | none => .error "KeyError: type"
        | some t =>
          let pat := (lookupKV fkvs "pattern").getD (.str "any")
          (fieldLines fs).map (fun rest =>
            ("- " ++ pyStr n ++ " (type: " ++ pyStr t ++ ", pattern: " ++ pyStr pat ++ ")") :: rest)
    | _ => .error "TypeError: field entry is not subscriptable by a string key"

/-- `_build_extraction_prompt(schema)`: renders one description line per
entry of `schema.get("fields", [])` inside a fixed template.  A non-dict
schema raises `AttributeError` on `.get`; a non-iterable `fields` value
raises `TypeError`; entries without `name`/`type` raise as in
`fieldLines`.  NOTE: `extract_fields` calls this *before* its `try`
block, so these exceptions propagate to the caller. -/
def build_extraction_prompt (schema : JValue) : Except String String :=
  match schema with
  | .obj kvs =>
    match pyIter ((lookupKV kvs "fields").getD (.arr [])) with
    | none => .error "TypeError: schema fields value is not iterable"
    | some fs =>
      (fieldLines fs).map (fun lines =>
        "Extract the following fields from financial statement text:\n" ++
        String.intercalate "\n" lines ++ "\n\n" ++
        "IMPORTANT: You MUST return ONLY a valid JSON object, with no additional " ++
        "text or explanation.\n\n" ++
        "Return JSON object with this exact format: " ++
        "\x7b\"fields\": [\x7b\"name\": string, \"value\": typed_value, \"confidence\": float, " ++
        "\"source\": \x7b\"page\": int, \"lineIdx\": int?\x7d\x7d], \"errors\": []\x7d.\n\n" ++
        "Rules:\n" ++
        "- Return null for missing fields\n" ++
        "- Include confidence score (0.0-1.0)\n" ++
        "- Preserve data types (numbers as numbers, dates as ISO strings)\n" ++
        "- Extract source page and line index when possible\n" ++
        "- Return ONLY the JSON object, no other text")
  | _ => .error "AttributeError: schema object has no attribute get"

/-- `_build_summary_prompt(style)`: style lookup with `bullet` as the
fallback for unrecognized tags.  Total. -/
def build_summary_prompt (style : String) : String :=
  let bulletInstr := "Create a concise bullet-point summary (3-5 points)."
  let instr :=
    if style == "bullet" then bulletInstr
    else if style == "paragraph" then "Write a single paragraph summary (3-4 sentences)."
    else if style == "executive" then "Provide an executive summary highlighting key insights."
    else bulletInstr
  "Summarize the following page content.\n" ++ instr ++ "\n\n" ++
  "Focus on factual information and key data points. Avoid speculation."

/-! ## The three public operations

The transport round-trip is abstracted by its outcome (`Except.error e`
models a raised exception with message `e`).  The page batch / input texts
only flow into the request payload, hence into the transport outcome, and
are therefore not separate parameters of `classify_pages` and
`extract_fields`.  The JSON parser is the `parse` parameter throughout. -/

/-- `classify_pages` from `MistralProvider`.  A missing client raises
`RuntimeError` before anything else; the classification prompt is built
next (total for a list of strings); everything from the transport call on
sits inside `try`, whose `except Exception` returns `[]`, as do all the
decode-failure branches. -/
def classify_pages (s : Provider) (parse : String → Except String JValue)
    (transport : Except String Response) (labels : List String) :
    Except String (List JValue) :=
  if s.client.isNone then .error "Mistral client not initialized"
  else
    let _prompt := build_classification_prompt labels
    match transport with
    | .error _ => .ok []
    | .ok response =>
      match response.choices with
      | [] => .ok []
      | choice :: _ =>
        match choice.message.content with
        | none => .ok []
        | some result_text =>
          if result_text == "" then .ok []
          else
            let stripped := pyStrip result_text
            if stripped == "" then .ok []
            else
              match parse stripped with
              | .error _ => .ok []
              | .ok result =>
                match validate_classification_result result labels with
                | none => .ok []
                | some validated => .ok validated

/-- `extract_fields` from `MistralProvider`.  A missing client raises
`RuntimeError`; the extraction prompt is built **before** the `try`
block, so a prompt-construction exception propagates (`Except.error`);
afterwards every failure degrades to `{"fields": [], "errors": [msg]}`
with the branch-specific message, and a successful parse goes through
`_validate_extraction_result`. -/
def extract_fields (s : Provider) (parse : String → Except String JValue)
    (transport : Except String Response) (schema : JValue) :
    Except String ExtractionResult :=
  if s.client.isNone then .error "Mistral client not initialized"
  else
    match build_extraction_prompt schema with
    | .error e => .error e
    | .ok _prompt =>
      match transport with
      | .error e => .ok ⟨[], .arr [.str e]⟩
      | .ok response =>
        match response.choices with
        | [] => .ok ⟨[], .arr [.str "Mistral API returned empty response (no choices)"]⟩
        | choice :: _ =>
          match choice.message.content with
          | none => .ok ⟨[], .arr [.str "Mistral API returned empty content in response"]⟩
          | some result_text =>
            if result_text == "" then
              .ok ⟨[], .arr [.str "Mistral API returned empty content in response"]⟩
            else
              let stripped := pyStrip result_text
              if stripped == "" then
                .ok ⟨[], .arr [.str "Mistral API returned whitespace-only content"]⟩
              else
                match parse stripped with
                | .error je =>
                  .ok ⟨[], .arr [.str ("Failed to parse Mistral response as JSON: " ++ je)]⟩
                | .ok result => .ok (validate_extraction_result result)

/-- An element of the `pages` argument of `summarize_pages`, per its
documented shape: a dict with a `page` value and a `text` string. -/
structure PageIn where
  page : JValue
  text : String

/-- An element of the list returned by `summarize_pages`: the dict
`{"page": ..., "summary": ...}`.  `summary` is a JSON value because the
code can store `None` there (a null `message.content`). -/
structure SummaryEntry where
  page : JValue
  summary : JValue

/-- One iteration of the `for page in pages` loop of `summarize_pages`,
given the outcome of that page's transport call.  A raised exception is
caught per page and yields `{"page": ..., "summary": f"Error: {e}"}`;
otherwise `summary_text = response.choices[0].message.content if
response.choices else ""` is stored as-is (possibly `""` or `None`). -/
def summarizePage (t : Except String Response) (p : PageIn) : SummaryEntry :=
  match t with
  | .error e => ⟨p.page, .str ("Error: " ++ e)⟩
  | .ok response =>
    match response.choices with
    | [] => ⟨p.page, .str ""⟩
    | choice :: _ =>
      match choice.message.content with
      | none => ⟨p.page, JValue.null⟩
      | some s => ⟨p.page, .str s⟩

/-- The per-page loop of `summarize_pages`: one transport call per page,
in input order; `touts i` is the outcome of the call for the i-th page
(counting from the given start index). -/
def summarizeLoop (touts : Nat → Except String Response) :
    Nat → List PageIn → List SummaryEntry
  | _, [] => []
  | i, p :: ps => summarizePage (touts i) p :: summarizeLoop touts (i + 1) ps

/-- `summarize_pages` from `MistralProvider`: a missing client raises
`RuntimeError`; otherwise the per-page loop runs to completion, every
per-page exception being caught inside the loop. -/
def summarize_pages (s : Provider) (touts : Nat → Except String Response)
    (pages : List PageIn) : Except String (List SummaryEntry) :=
  if s.client.isNone then .error "Mistral client not initialized"
  else .ok (summarizeLoop touts 0 pages)

/-! ## Parameter coercion (`coerce_parameter`) -/

/-- The `expected_type` argument of `coerce_parameter` (`dict` or
`list`). -/
inductive TargetKind where
  | mapping : TargetKind
  | sequence : TargetKind

/-- Whether a value already has the target container kind. -/
def matchesKind (v : JValue) : TargetKind → Bool
  | .mapping => match v with | .obj _ => true | _ => false
  | .sequence => match v with | .arr _ => true | _ => false

/-- Modelled from the spec: `coerce_parameter(value, target_type)` from
`docsray/tools/mistral_tools.py` is imported by the unit tests and the
verification script but its definition is not part of the provided
sources; this follows spec §4.1.  A value already of the target kind is
returned unchanged; a string is parsed as JSON and the parse result
returned when it matches the target kind; `None` is returned unchanged;
a failed parse or a kind mismatch returns the original string unchanged;
no case raises.  (Values of other shapes, which the spec leaves
unspecified, are returned unchanged in keeping with its "best-effort,
never a hard gate" rule.) -/
def coerce_parameter (parse : String → Except String JValue)
    (value : JValue) (kind : TargetKind) : JValue :=
  if matchesKind value kind then value
  else
    match value with
    | .str s =>
      match parse s with
      | .ok parsed => if matchesKind parsed kind then parsed else .str s
      | .error _ => .str s
    | .null => .null
    | v => v

/-! Sanity checks against the repository's unit tests. -/

example :
    validate_classification_result
      (.obj [("labels", .arr
        [.obj [("page", .num 1), ("label", .str "income_statement"), ("confidence", .num (95/100))],
         .obj [("page", .num 2), ("label", .str "bogus"), ("confidence", .num (5/10))]])])
      ["income_statement", "balance_sheet"]
    = some [.obj [("page", .num 1), ("label", .str "income_statement"), ("confidence", .num (95/100))]] := by
  simp [validate_classification_result, pyIter, lookupKV, validateItemsLoop, checkItem,
    hasKey, labelOk, confCmp]
  norm_num

example :
    validate_extraction_result (.str "nope")
    = ⟨[], .arr [.str "Invalid result format: expected dict"]⟩ := by
  rfl

/-! ## Lemmas about the two validators -/

/-- The extraction field loop computes a `filter` of its keep condition. -/
theorem validateFieldsLoop_fst (fs : List JValue) :
    (validateFieldsLoop fs).1 = fs.filter extractionFieldKeep := by
  induction fs with
  | nil => rfl
  | cons f fs ih =>
    simp only [validateFieldsLoop, List.filter_cons]
    cases h : extractionFieldKeep f <;> simp [h, ih]

/-- The retention condition of claim C1, read off the claim: the element
is an object with all of `page`, `label`, `confidence`, its label is one
of the supplied labels or `"other"`, and its confidence lies within
`[0.0, 1.0]` (a Python boolean counts as the integer 0 or 1). -/
def claimRetains (labels : List String) (item : JValue) : Bool :=
  match item with
  | .obj kvs =>
    hasKey kvs "page" && hasKey kvs "label" && hasKey kvs "confidence" &&
    labelOk labels ((lookupKV kvs "label").getD .null) &&
    (match (lookupKV kvs "confidence").getD .null with
     | .num q => decide (0 ≤ q) && decide (q ≤ 1)
     | .bool _ => true
     | _ => false)
  | _ => false

/-- When the per-item check does not raise, it decides exactly the
claim's retention condition. -/
theorem checkItem_eq_some (labels : List String) (it : JValue) (b : Bool)
    (h : checkItem labels it = some b) : claimRetains labels it = b := by
  cases it with
  | obj kvs =>
    simp only [checkItem] at h
    by_cases hk : (hasKey kvs "page" && hasKey kvs "label" && hasKey kvs "confidence") = true
    · by_cases hl : labelOk labels ((lookupKV kvs "label").getD .null) = true
      · simp only [hk, hl, Bool.not_true, Bool.false_eq_true, if_false] at h
        rcases hv : (lookupKV kvs "confidence").getD JValue.null with _ | bb | q | s | a | o <;>
          rw [hv] at h <;> simp only [confCmp] at h
        · exact absurd h (by simp)
        · simp [claimRetains, hk, hl, hv, ← Option.some_inj.mp h]
        · simp [claimRetains, hk, hl, hv, ← Option.some_inj.mp h]
        · exact absurd h (by simp)
        · exact absurd h (by simp)
        · exact absurd h (by simp)
      · rw [Bool.not_eq_true] at hl
        simp only [hk, hl, Bool.not_true, Bool.false_eq_true, if_false, Bool.not_false,
          if_true] at h
        simp [claimRetains, ← Option.some_inj.mp h, hl]
    · rw [Bool.not_eq_true] at hk
      simp only [hk, Bool.not_false, if_true] at h
      simp [claimRetains, ← Option.some_inj.mp h, hk]
  | null => simp only [checkItem] at h; simp [claimRetains, ← Option.some_inj.mp h]
  | bool bb => simp only [checkItem] at h; simp [claimRetains, ← Option.some_inj.mp h]
  | num q => simp only [checkItem] at h; simp [claimRetains, ← Option.some_inj.mp h]
  | str s => simp only [checkItem] at h; simp [claimRetains, ← Option.some_inj.mp h]
  | arr xs => simp only [checkItem] at h; simp [claimRetains, ← Option.some_inj.mp h]

/-- When no item raises, the classification loop keeps exactly the items
satisfying `claimRetains`, in their original relative order. -/
theorem validateItemsLoop_filter (labels : List String) (xs : List JValue)
    (h : ∀ it ∈ xs, (checkItem labels it).isSome = true) :
    ∃ n, validateItemsLoop labels xs = some (xs.filter (claimRetains labels), n) := by
  induction xs with
  | nil => exact ⟨0, rfl⟩
  | cons x xs ih =>
    obtain ⟨n, hn⟩ := ih (fun it hit => h it (List.mem_cons_of_mem x hit))
    have hx := h x (List.mem_cons_self x xs)
    rw [Option.isSome_iff_exists] at hx
    obtain ⟨b, hb⟩ := hx
    have hcr := checkItem_eq_some labels x b hb
    cases b with
    | true =>
      refine ⟨n, ?_⟩
      simp [validateItemsLoop, hb, hn, List.filter_cons, hcr]
    | false =>
      refine ⟨n + 1, ?_⟩
      simp [validateItemsLoop, hb, hn, List.filter_cons, hcr]

/-- When every item is skipped without raising, the loop validates
nothing. -/
theorem validateItemsLoop_allFalse (labels : List String) (xs : List JValue)
    (h : ∀ it ∈ xs, checkItem labels it = some false) :
    ∃ n, validateItemsLoop labels xs = some ([], n) := by
  induction xs with
  | nil => exact ⟨0, rfl⟩
  | cons x xs ih =>
    obtain ⟨n, hn⟩ := ih (fun it hit => h it (List.mem_cons_of_mem x hit))
    refine ⟨n + 1, ?_⟩
    simp [validateItemsLoop, h x (List.mem_cons_self x xs), hn]

/-! ## Claim C1 — classification validation filters per record -/

/-- C1 (amended): for every candidate array and labels list in which no
element makes the confidence comparison raise (`checkItem` is `some` on
every element — i.e. every element that is an object with all three keys
and an admissible label carries a numeric or boolean confidence), the
validator rejects exactly the elements that are not objects, lack a
required key, have an inadmissible label, or have a confidence outside
[0.0, 1.0], and retains the remaining elements in their original relative
order. -/
theorem c1_classification_validation_filters (xs : List JValue) (labels : List String)
    (h : ∀ it ∈ xs, (checkItem labels it).isSome = true) :
    validate_classification_result (.arr xs) labels
      = some (xs.filter (claimRetains labels)) := by
  obtain ⟨n, hn⟩ := validateItemsLoop_filter labels xs h
  simp [validate_classification_result, pyIter, hn]

def c1goodItem : JValue :=
  .obj [("page", .num 1), ("label", .str "income_statement"), ("confidence", .num 1)]

def c1badItem : JValue :=
  .obj [("page", .num 2), ("label", .str "bogus"), ("confidence", .num 1)]

/-- Witness for C1: a concrete run keeping the valid record and dropping
the bad-label record. -/
theorem c1_witness :
    validate_classification_result (.arr [c1goodItem, c1badItem]) ["income_statement"]
      = some [c1goodItem] := by
  have h := c1_classification_validation_filters [c1goodItem, c1badItem]
    ["income_statement"] (by decide)
  rw [h]
  simp [claimRetains, c1goodItem, c1badItem, hasKey, lookupKV, labelOk]

def c1nullConfItem : JValue :=
  .obj [("page", .num 1), ("label", .str "other"), ("confidence", JValue.null)]

/-- Counterexample to C1 as stated: an element that is an object with all
three keys and the admissible label `"other"` but a `null` confidence
makes the comparison `0.0 <= item["confidence"] <= 1.0` raise `TypeError`
(result `none`), so the validator neither rejects the element nor retains
the others — it returns no list at all, contradicting "it retains exactly
the remaining elements". -/
theorem c1_counterexample :
    validate_classification_result (.arr [c1nullConfItem]) [] = none
    ∧ validate_classification_result (.arr [c1nullConfItem]) []
        ≠ some ([c1nullConfItem].filter (claimRetains [])) := by
  refine ⟨rfl, ?_⟩
  have e : validate_classification_result (.arr [c1nullConfItem]) [] = none := rfl
  rw [e]
  simp

/-! ## Claim C2 — extraction validation postcondition -/

/-- C2: for every parsed value, a non-dict input yields exactly
`{fields: [], errors: ["Invalid result format: expected dict"]}`; a dict
input yields as `fields` exactly the entries of its `fields` list
(defaulting to empty when the key is absent or its value is not a list)
that are dicts containing all of `name`, `value` and `confidence` — with
no confidence-range check — and as `errors` the input's `errors` value
untouched (defaulting to the empty list when the key is absent). -/
theorem c2_extraction_validation_post (v : JValue) :
    validate_extraction_result v =
      match v with
      | .obj kvs =>
        { fields := (match (lookupKV kvs "fields").getD (.arr []) with
                     | .arr fs => fs
                     | _ => []).filter extractionFieldKeep,
          errors := (lookupKV kvs "errors").getD (.arr []) }
      | _ => { fields := [], errors := .arr [.str "Invalid result format: expected dict"] } := by
  cases v <;> simp [validate_extraction_result, validateFieldsLoop_fst]

/-! ## Claim C9 — dict input handling in classification validation -/

/-- C9 (amended): when the parsed value is a JSON object, the working
array is the value of its `labels` key.  If the key is absent the
validator returns the empty list; if the value is an array the normal
per-item loop runs on it; if the value is a string or an object the
Python `for` loop iterates its characters resp. keys, each of which is
rejected, so the validator returns the empty list; but if the value is a
number, boolean or null, the `for` loop raises `TypeError`, which
escapes the validator (`none`) rather than yielding the empty list. -/
theorem c9_dict_labels_handling (kvs : List (String × JValue)) (labels : List String) :
    (lookupKV kvs "labels" = none →
      validate_classification_result (.obj kvs) labels = some [])
  ∧ (∀ s, lookupKV kvs "labels" = some (.str s) →
      validate_classification_result (.obj kvs) labels = some [])
  ∧ (∀ kvs2, lookupKV kvs "labels" = some (.obj kvs2) →
      validate_classification_result (.obj kvs) labels = some [])
  ∧ (∀ xs, lookupKV kvs "labels" = some (.arr xs) →
      validate_classification_result (.obj kvs) labels
        = (validateItemsLoop labels xs).map (fun r => r.1))
  ∧ (∀ q, lookupKV kvs "labels" = some (.num q) →
      validate_classification_result (.obj kvs) labels = none)
  ∧ (∀ b, lookupKV kvs "labels" = some (.bool b) →
      validate_classification_result (.obj kvs) labels = none)
  ∧ (lookupKV kvs "labels" = some JValue.null →
      validate_classification_result (.obj kvs) labels = none) := by
  refine ⟨?_, ?_, ?_, ?_, ?_, ?_, ?_⟩
  · intro hl
    simp [validate_classification_result, hl, pyIter, validateItemsLoop]
  · intro s hl
    obtain ⟨n, hn⟩ := validateItemsLoop_allFalse labels
      (s.data.map fun c => JValue.str (String.mk [c]))
      (by intro it hit; obtain ⟨c, _, rfl⟩ := List.mem_map.mp hit; rfl)
    simp [validate_classification_result, hl, pyIter, hn]
  · intro kvs2 hl
    obtain ⟨n, hn⟩ := validateItemsLoop_allFalse labels
      (kvs2.map fun kv => JValue.str kv.1)
      (by intro it hit; obtain ⟨kv, _, rfl⟩ := List.mem_map.mp hit; rfl)
    simp [validate_classification_result, hl, pyIter, hn]
  · intro xs hl
    simp [validate_classification_result, hl, pyIter]
  · intro q hl
    simp [validate_classification_result, hl, pyIter]
  · intro b hl
    simp [validate_classification_result, hl, pyIter]
  · intro hl
    simp [validate_classification_result, hl, pyIter]

/-- Witness for C9: an object without a `labels` key yields the empty
list. -/
theorem c9_witness :
    validate_classification_result (.obj [("other_key", .num 1)]) ["a"] = some [] :=
  (c9_dict_labels_handling [("other_key", .num 1)] ["a"]).1 rfl

/-- Counterexample to C9 as stated: a `labels` value that is a number is
"not an array", yet the validator does not return the empty list — the
`for` loop over it raises `TypeError`. -/
theorem c9_counterexample :
    validate_classification_result (.obj [("labels", .num 5)]) [] = none
    ∧ validate_classification_result (.obj [("labels", .num 5)]) [] ≠ some [] := by
  refine ⟨rfl, ?_⟩
  have e : validate_classification_result (.obj [("labels", .num 5)]) [] = none := rfl
  rw [e]
  simp

/-! ## Claim C3 — parameter coercion -/

/-- C3: for every string parsed successfully to a value of the target
kind, coercion returns exactly the parsed structure; for every string the
parser rejects, coercion returns the input string unchanged (and raises
nothing — the function is total); and coercing `None` returns `None`. -/
theorem c3_coerce_parameter_spec (parse : String → Except String JValue)
    (kind : TargetKind) :
    (∀ s v, parse s = .ok v → matchesKind v kind = true →
      coerce_parameter parse (.str s) kind = v)
  ∧ (∀ s e, parse s = .error e → coerce_parameter parse (.str s) kind = .str s)
  ∧ coerce_parameter parse JValue.null kind = JValue.null := by
  have hstr : ∀ s, matchesKind (.str s) kind = false := by
    intro s; cases kind <;> rfl
  have hnull : matchesKind JValue.null kind = false := by
    cases kind <;> rfl
  refine ⟨?_, ?_, ?_⟩
  · intro s v hp hm
    simp [coerce_parameter, hstr, hp, hm]
  · intro s e hp
    simp [coerce_parameter, hstr, hp]
  · simp [coerce_parameter, hnull]

def parseC3 : String → Except String JValue :=
  fun s => if s = "[1]" then .ok (.arr [.num 1]) else .error "Expecting value"

/-- Witness for C3: a concrete parser on which a valid JSON string
round-trips, an invalid one is returned unchanged, and `None` passes
through. -/
theorem c3_witness :
    parseC3 "[1]" = .ok (.arr [.num 1])
    ∧ coerce_parameter parseC3 (.str "[1]") .sequence = .arr [.num 1]
    ∧ parseC3 "not json" = .error "Expecting value"
    ∧ coerce_parameter parseC3 (.str "not json") .sequence = .str "not json"
    ∧ coerce_parameter parseC3 JValue.null .sequence = JValue.null := by
  have h := c3_coerce_parameter_spec parseC3 .sequence
  exact ⟨rfl, h.1 "[1]" (.arr [.num 1]) rfl rfl,
    rfl, h.2.1 "not json" "Expecting value" rfl, h.2.2⟩

/-! ## Claim C10 — initialization is total over its failure modes -/

/-- C10: starting from a provider whose client is unset (the
Uninitialized state of the spec's lifecycle), every failure mode of
`initialize` — disabled flag, absent/empty API key, `ImportError`,
constructor exception — returns normally, leaves `_initialized = False`
with no client, and every subsequent operation rejects with the
not-initialized `RuntimeError`; a disposed provider rejects
identically. -/
theorem c10_initialize_total (s : Provider) (cfg : MistralConfig) (co : ClientOutcome)
    (hc : s.client = none)
    (hfail : cfg.enabled = false ∨ strOptFalsy cfg.api_key = true
      ∨ co = .importError ∨ ∃ e, co = .constructError e) :
    ((initializeProvider s cfg co).initialized = false
      ∧ (initializeProvider s cfg co).client = none)
  ∧ (∀ parse t labels, classify_pages (initializeProvider s cfg co) parse t labels
      = .error "Mistral client not initialized")
  ∧ (∀ parse t schema, extract_fields (initializeProvider s cfg co) parse t schema
      = .error "Mistral client not initialized")
  ∧ (∀ touts pages, summarize_pages (initializeProvider s cfg co) touts pages
      = .error "Mistral client not initialized")
  ∧ (∀ s2 : Provider, ∀ parse t labels,
      classify_pages (dispose s2) parse t labels = .error "Mistral client not initialized")
  ∧ (∀ s2 : Provider, ∀ parse t schema,
      extract_fields (dispose s2) parse t schema = .error "Mistral client not initialized")
  ∧ (∀ s2 : Provider, ∀ touts pages,
      summarize_pages (dispose s2) touts pages = .error "Mistral client not initialized") := by
  have hstate : (initializeProvider s cfg co).initialized = false
      ∧ (initializeProvider s cfg co).client = none := by
    rcases hfail with he | hk | hco | ⟨e, hco⟩
    · simp [initializeProvider, he, hc]
    · cases hcfg : cfg.enabled <;> simp [initializeProvider, hcfg, hk, hc]
    · subst hco
      cases hcfg : cfg.enabled <;> cases hkk : strOptFalsy cfg.api_key <;>
        simp [initializeProvider, hcfg, hkk, hc]
    · subst hco
      cases hcfg : cfg.enabled <;> cases hkk : strOptFalsy cfg.api_key <;>
        simp [initializeProvider, hcfg, hkk, hc]
  refine ⟨hstate, ?_, ?_, ?_, ?_, ?_, ?_⟩
  · intro parse t labels
    simp [classify_pages, hstate.2]
  · intro parse t schema
    simp [extract_fields, hstate.2]
  · intro touts pages
    simp [summarize_pages, hstate.2]
  · intro s2 parse t labels
    simp [classify_pages, dispose]
  · intro s2 parse t schema
    simp [extract_fields, dispose]
  · intro s2 touts pages
    simp [summarize_pages, dispose]

/-- Witness for C10: initializing a fresh provider with a disabled config
leaves it uninitialized and a subsequent classify call rejects. -/
theorem c10_witness :
    (initializeProvider freshProvider ⟨false, none⟩ .ok).initialized = false
    ∧ classify_pages (initializeProvider freshProvider ⟨false, none⟩ .ok)
        (fun _ => .error "no parse") (.ok ⟨[]⟩) []
        = .error "Mistral client not initialized" := by
  have h := c10_initialize_total freshProvider ⟨false, none⟩ .ok rfl (Or.inl rfl)
  exact ⟨h.1.1, h.2.1 _ _ _⟩

/-! ## Lemmas about the three operations -/

/-- The documented shape of the `schema` argument (a `FieldSchema` in the
spec's data model): a dict whose `fields` value, when present, is a list
of dicts each carrying `name` and `type`.  This is exactly what
`_build_extraction_prompt` needs in order not to raise. -/
def isFieldSchema : JValue → Bool
  | .obj kvs =>
    match lookupKV kvs "fields" with
    | none => true
    | some (.arr fs) =>
      fs.all fun f =>
        match f with
        | .obj fkvs => hasKey fkvs "name" && hasKey fkvs "type"
        | _ => false
    | some _ => false
  | _ => false

/-- Field description lines render without raising when every entry is a
dict with `name` and `type`. -/
theorem fieldLines_ok (fs : List JValue)
    (h : (fs.all fun f =>
      match f with
      | .obj fkvs => hasKey fkvs "name" && hasKey fkvs "type"
      | _ => false) = true) :
    ∃ lines, fieldLines fs = .ok lines := by
  induction fs with
  | nil => exact ⟨[], rfl⟩
  | cons f fs ih =>
    rw [List.all_cons, Bool.and_eq_true] at h
    obtain ⟨lines, hl⟩ := ih h.2
    cases f with
    | obj fkvs =>
      have h1 : (hasKey fkvs "name" && hasKey fkvs "type") = true := h.1
      simp only [Bool.and_eq_true, hasKey, Option.isSome_iff_exists] at h1
      obtain ⟨⟨n, hn⟩, ⟨t, ht⟩⟩ := h1
      exact ⟨("- " ++ pyStr n ++ " (type: " ++ pyStr t ++ ", pattern: " ++
          pyStr ((lookupKV fkvs "pattern").getD (JValue.str "any")) ++ ")") :: lines,
        by simp [fieldLines, hn, ht, hl, Except.map]⟩
    | null => exact Bool.noConfusion h.1
    | bool b => exact Bool.noConfusion h.1
    | num q => exact Bool.noConfusion h.1
    | str s => exact Bool.noConfusion h.1
    | arr xs => exact Bool.noConfusion h.1

/-- Prompt construction succeeds on every well-shaped `FieldSchema`. -/
theorem build_extraction_prompt_ok (schema : JValue) (h : isFieldSchema schema = true) :
    ∃ p, build_extraction_prompt schema = .ok p := by
  cases schema with
  | obj kvs =>
    simp only [isFieldSchema] at h
    rcases hf : lookupKV kvs "fields" with _ | fv
    · simp [build_extraction_prompt, hf, pyIter, fieldLines, Except.map]
    · rw [hf] at h
      cases fv with
      | arr fs =>
        obtain ⟨lines, hl⟩ := fieldLines_ok fs h
        simp [build_extraction_prompt, hf, pyIter, hl, Except.map]
      | null => exact Bool.noConfusion h
      | bool b => exact Bool.noConfusion h
      | num q => exact Bool.noConfusion h
      | str s => exact Bool.noConfusion h
      | obj kvs2 => exact Bool.noConfusion h
  | null => exact Bool.noConfusion h
  | bool b => exact Bool.noConfusion h
  | num q => exact Bool.noConfusion h
  | str s => exact Bool.noConfusion h
  | arr xs => exact Bool.noConfusion h

/-- On an initialized provider, `classify_pages` never raises: every
transport, decode and validation outcome lands in an `.ok` result. -/
theorem classify_pages_ok (s : Provider) (parse : String → Except String JValue)
    (t : Except String Response) (labels : List String) (hc : s.client = some ()) :
    ∃ r, classify_pages s parse t labels = .ok r := by
  unfold classify_pages
  rw [hc]
  simp only [Option.isNone_some, Bool.false_eq_true, if_false]
  rcases t with e | ⟨choices⟩
  · exact ⟨[], rfl⟩
  · rcases choices with _ | ⟨⟨⟨content⟩⟩, rest⟩
    · exact ⟨[], rfl⟩
    · rcases content with _ | txt
      · exact ⟨[], rfl⟩
      · by_cases h1 : (txt == "") = true
        · exact ⟨[], by simp [h1]⟩
        · rw [Bool.not_eq_true] at h1
          by_cases h2 : (pyStrip txt == "") = true
          · exact ⟨[], by simp [h1, h2]⟩
          · rw [Bool.not_eq_true] at h2
            rcases hp : parse (pyStrip txt) with je | result
            · exact ⟨[], by simp [h1, h2, hp]⟩
            · rcases hv : validate_classification_result result labels with _ | validated
              · exact ⟨[], by simp [h1, h2, hp, hv]⟩
              · exact ⟨validated, by simp [h1, h2, hp, hv]⟩

/-- On an initialized provider with a well-shaped schema,
`extract_fields` never raises. -/
theorem extract_fields_ok (s : Provider) (parse : String → Except String JValue)
    (t : Except String Response) (schema : JValue) (hc : s.client = some ())
    (hs : isFieldSchema schema = true) :
    ∃ r, extract_fields s parse t schema = .ok r := by
  obtain ⟨p, hp⟩ := build_extraction_prompt_ok schema hs
  unfold extract_fields
  rw [hc, hp]
  simp only [Option.isNone_some, Bool.false_eq_true, if_false]
  rcases t with e | ⟨choices⟩
  · exact ⟨_, rfl⟩
  · rcases choices with _ | ⟨⟨⟨content⟩⟩, rest⟩
    · exact ⟨_, rfl⟩
    · rcases content with _ | txt
      · exact ⟨_, rfl⟩
      · by_cases h1 : (txt == "") = true
        · simp [h1]
        · rw [Bool.not_eq_true] at h1
          by_cases h2 : (pyStrip txt == "") = true
          · simp [h1, h2]
          · rw [Bool.not_eq_true] at h2
            rcases hpp : parse (pyStrip txt) with je | result
            · simp [h1, h2, hpp]
            · simp [h1, h2, hpp]

/-- The summary entry always echoes the input page value. -/
theorem summarizePage_page (t : Except String Response) (p : PageIn) :
    (summarizePage t p).page = p.page := by
  rcases t with e | ⟨choices⟩
  · rfl
  · rcases choices with _ | ⟨⟨⟨content⟩⟩, rest⟩
    · rfl
    · rcases content with _ | txt <;> rfl

/-- The summarization loop yields one entry per page. -/
theorem summarizeLoop_length (touts : Nat → Except String Response) (k : Nat)
    (ps : List PageIn) : (summarizeLoop touts k ps).length = ps.length := by
  induction ps generalizing k with
  | nil => rfl
  | cons p ps ih => simp [summarizeLoop, ih]

/-- The i-th output entry of the summarization loop comes from the i-th
input page and the i-th transport outcome. -/
theorem summarizeLoop_get? (touts : Nat → Except String Response) (k : Nat)
    (ps : List PageIn) (i : Nat) :
    (summarizeLoop touts k ps).get? i
      = (ps.get? i).map (fun p => summarizePage (touts (k + i)) p) := by
  induction ps generalizing k i with
  | nil => simp [summarizeLoop]
  | cons p ps ih =>
    cases i with
    | zero => simp [summarizeLoop]
    | succ j =>
      simp only [summarizeLoop, List.get?_cons_succ, ih]
      have : k + (j + 1) = (k + 1) + j := by omega
      rw [this]

/-! ## Claim C4 — no unhandled exception escapes a public operation -/

/-- C4: on an initialized provider, with inputs of the documented shapes
(string labels, a `FieldSchema`-shaped schema, page dicts with `page` and
`text`), every transport, decoder and validator outcome — including
raising ones — leads each public operation to return normally with its
designated result type: classify and extract are `.ok` for every
transport/parse outcome, summarize is `.ok` for every per-page outcome,
and a raising transport yields the degraded shapes `[]` resp.
`{fields: [], errors: [str(e)]}`. -/
theorem c4_no_exception_propagation (s : Provider) (hc : s.client = some ())
    (parse : String → Except String JValue) (t : Except String Response)
    (labels : List String) (schema : JValue) (hs : isFieldSchema schema = true)
    (touts : Nat → Except String Response) (pages : List PageIn) :
    (classify_pages s parse t labels).isOk = true
  ∧ (extract_fields s parse t schema).isOk = true
  ∧ (summarize_pages s touts pages).isOk = true
  ∧ (∀ e, t = .error e →
      classify_pages s parse t labels = .ok []
      ∧ extract_fields s parse t schema = .ok ⟨[], .arr [.str e]⟩) := by
  obtain ⟨r1, h1⟩ := classify_pages_ok s parse t labels hc
  obtain ⟨r2, h2⟩ := extract_fields_ok s parse t schema hc hs
  obtain ⟨p, hpr⟩ := build_extraction_prompt_ok schema hs
  refine ⟨by rw [h1]; rfl, by rw [h2]; rfl, ?_, ?_⟩
  · simp [summarize_pages, hc, Except.isOk, Except.toBool]
  · intro e he
    subst he
    exact ⟨by simp [classify_pages, hc], by simp [extract_fields, hc, hpr]⟩

/-- Witness for C4 at a raising transport, a failing parser and a
concrete schema. -/
theorem c4_witness :
    (classify_pages readyProvider (fun _ => .error "bad json") (.error "boom") []).isOk = true
  ∧ (extract_fields readyProvider (fun _ => .error "bad json") (.error "boom") (.obj [])).isOk = true
  ∧ (summarize_pages readyProvider (fun _ => .error "boom") [⟨.num 1, "t"⟩]).isOk = true := by
  have h := c4_no_exception_propagation readyProvider rfl (fun _ => .error "bad json")
    (.error "boom") [] (.obj []) rfl (fun _ => .error "boom") [⟨.num 1, "t"⟩]
  exact ⟨h.1, h.2.1, h.2.2.1⟩

/-! ## Claim C5 — empty choices degrade classify and extract -/

/-- C5: a transport response with `choices = []` makes classify return
`[]` and extract return `{fields: [], errors: [msg]}` with exactly one
non-empty message. -/
theorem c5_empty_choices (s : Provider) (parse : String → Except String JValue)
    (labels : List String) (schema : JValue) (hc : s.client = some ())
    (hs : isFieldSchema schema = true) :
    classify_pages s parse (.ok ⟨[]⟩) labels = .ok []
  ∧ extract_fields s parse (.ok ⟨[]⟩) schema
      = .ok ⟨[], .arr [.str "Mistral API returned empty response (no choices)"]⟩
  ∧ "Mistral API returned empty response (no choices)" ≠ "" := by
  obtain ⟨p, hpr⟩ := build_extraction_prompt_ok schema hs
  exact ⟨by simp [classify_pages, hc], by simp [extract_fields, hc, hpr], by simp⟩

/-- Witness for C5 on concrete inputs. -/
theorem c5_witness :
    classify_pages readyProvider (fun _ => .error "x") (.ok ⟨[]⟩) [] = .ok []
  ∧ extract_fields readyProvider (fun _ => .error "x") (.ok ⟨[]⟩) (.obj [])
      = .ok ⟨[], .arr [.str "Mistral API returned empty response (no choices)"]⟩ := by
  have h := c5_empty_choices readyProvider (fun _ => .error "x") [] (.obj []) rfl rfl
  exact ⟨h.1, h.2.1⟩

/-! ## Claim C6 — whitespace-only content degrades like empty choices -/

/-- C6 (amended): whitespace-only content makes classify return `[]`,
literally the same result as the empty-choices case, and makes extract
return `{fields: [], errors: [<non-empty message>]}` of the same shape as
the empty-choices case — but with a different message string
("whitespace-only content" instead of "empty response (no choices)"),
so the two extract results are not equal. -/
theorem c6_whitespace_content (s : Provider) (parse : String → Except String JValue)
    (labels : List String) (schema : JValue) (hc : s.client = some ())
    (hs : isFieldSchema schema = true) :
    classify_pages s parse (.ok ⟨[⟨⟨some "   \n\t  "⟩⟩]⟩) labels = .ok []
  ∧ classify_pages s parse (.ok ⟨[⟨⟨some "   \n\t  "⟩⟩]⟩) labels
      = classify_pages s parse (.ok ⟨[]⟩) labels
  ∧ extract_fields s parse (.ok ⟨[⟨⟨some "   \n\t  "⟩⟩]⟩) schema
      = .ok ⟨[], .arr [.str "Mistral API returned whitespace-only content"]⟩
  ∧ "Mistral API returned whitespace-only content" ≠ "" := by
  obtain ⟨p, hpr⟩ := build_extraction_prompt_ok schema hs
  have hne : (("   \n\t  " : String) == "") = false := rfl
  have hws : (pyStrip "   \n\t  " == "") = true := rfl
  refine ⟨?_, ?_, ?_, by simp⟩
  · simp [classify_pages, hc, hne, hws]
  · simp [classify_pages, hc, hne, hws]
  · simp [extract_fields, hc, hpr, hne, hws]

/-- Counterexample to C6's "with the same result as when choices = []":
for extract the two degraded results differ — the error message strings
are distinct. -/
theorem c6_counterexample :
    extract_fields readyProvider (fun _ => .error "unused")
        (.ok ⟨[⟨⟨some "   \n\t  "⟩⟩]⟩) (.obj [])
      ≠ extract_fields readyProvider (fun _ => .error "unused") (.ok ⟨[]⟩) (.obj []) := by
  have e1 : extract_fields readyProvider (fun _ => .error "unused")
      (.ok ⟨[⟨⟨some "   \n\t  "⟩⟩]⟩) (.obj [])
      = .ok ⟨[], .arr [.str "Mistral API returned whitespace-only content"]⟩ := rfl
  have e2 : extract_fields readyProvider (fun _ => .error "unused") (.ok ⟨[]⟩) (.obj [])
      = .ok ⟨[], .arr [.str "Mistral API returned empty response (no choices)"]⟩ := rfl
  rw [e1, e2]
  simp [ExtractionResult.mk.injEq]

/-! ## Claim C7 — summarization isolates per-page failures -/

/-- C7: for every page batch and per-page transport outcomes, summarize
returns exactly one entry per input page in input order (echoing each
page's `page` value); a page whose transport call raised carries a
summary of the form `"Error: " ++ e`, and a page whose call succeeded
with a first choice holding content carries exactly that content. -/
theorem c7_summarize_isolation (s : Provider) (touts : Nat → Except String Response)
    (pages : List PageIn) (hc : s.client = some ()) :
    summarize_pages s touts pages = .ok (summarizeLoop touts 0 pages)
  ∧ (summarizeLoop touts 0 pages).length = pages.length
  ∧ ∀ i p, pages.get? i = some p →
      (summarizeLoop touts 0 pages).get? i = some (summarizePage (touts i) p)
      ∧ (summarizePage (touts i) p).page = p.page
      ∧ (∀ e, touts i = .error e →
          (summarizePage (touts i) p).summary = .str ("Error: " ++ e))
      ∧ (∀ resp c rest txt, touts i = .ok resp → resp.choices = c :: rest →
          c.message.content = some txt →
          (summarizePage (touts i) p).summary = .str txt) := by
  refine ⟨by simp [summarize_pages, hc], summarizeLoop_length touts 0 pages, ?_⟩
  intro i p hp
  refine ⟨?_, summarizePage_page _ _, ?_, ?_⟩
  · rw [summarizeLoop_get? touts 0 pages i, hp]
    simp
  · intro e he
    rw [he]
    rfl
  · intro resp c rest txt ht hch hco
    rw [ht]
    rcases resp with ⟨choices⟩
    simp only at hch
    subst hch
    simp [summarizePage, hco]

def toutsC7 : Nat → Except String Response :=
  fun i => if i = 0 then .ok ⟨[⟨⟨some "summary one"⟩⟩]⟩ else .error "boom"

/-- Witness for C7: two pages, the first call succeeds, the second
raises; both entries survive, in order, the second prefixed with
"Error: ". -/
theorem c7_witness :
    summarize_pages readyProvider toutsC7 [⟨.num 1, "text one"⟩, ⟨.num 2, "text two"⟩]
      = .ok [⟨.num 1, .str "summary one"⟩, ⟨.num 2, .str "Error: boom"⟩]
    ∧ ("Error: boom" : String) = "Error: " ++ "boom" := by
  have h := c7_summarize_isolation readyProvider toutsC7
    [⟨.num 1, "text one"⟩, ⟨.num 2, "text two"⟩] rfl
  refine ⟨?_, rfl⟩
  rw [h.1]
  rfl

/-! ## Claim C8 — decode failures during summarization -/

/-- C8 (amended): every decode failure mode on a page's transport
response keeps that page's entry in the output, but is *not* converted
into error text: zero choices store the empty string as the summary, a
null `message.content` stores null, and blank content is stored
unchanged; only a raised exception produces an `"Error: "`-prefixed
summary. -/
theorem c8_summarize_decode_failures (s : Provider)
    (touts : Nat → Except String Response) (pages : List PageIn) (i : Nat)
    (p : PageIn) (hc : s.client = some ()) (hp : pages.get? i = some p) :
    summarize_pages s touts pages = .ok (summarizeLoop touts 0 pages)
  ∧ (summarizeLoop touts 0 pages).get? i = some (summarizePage (touts i) p)
  ∧ (∀ resp, touts i = .ok resp → resp.choices = [] →
      summarizePage (touts i) p = ⟨p.page, .str ""⟩)
  ∧ (∀ resp c rest, touts i = .ok resp → resp.choices = c :: rest →
      c.message.content = none →
      summarizePage (touts i) p = ⟨p.page, JValue.null⟩)
  ∧ (∀ e, touts i = .error e →
      summarizePage (touts i) p = ⟨p.page, .str ("Error: " ++ e)⟩) := by
  refine ⟨by simp [summarize_pages, hc], ?_, ?_, ?_, ?_⟩
  · rw [summarizeLoop_get? touts 0 pages i, hp]
    simp
  · intro resp ht hch
    rw [ht]
    rcases resp with ⟨choices⟩
    simp only at hch
    subst hch
    rfl
  · intro resp c rest ht hch hco
    rw [ht]
    rcases resp with ⟨choices⟩
    simp only at hch
    subst hch
    simp [summarizePage, hco]
  · intro e he
    rw [he]
    rfl

/-- Counterexample to C8 as stated: a page whose transport response has
zero choices stays in the output but its summary is the *empty* string —
not a non-empty error text. -/
theorem c8_counterexample :
    summarize_pages readyProvider (fun _ => .ok ⟨[]⟩) [⟨.num 1, "page text"⟩]
      = .ok [⟨.num 1, .str ""⟩]
    ∧ ("" : String).length = 0 := ⟨rfl, rfl⟩

/-- Witness for C6 on concrete inputs. -/
theorem c6_witness :
    classify_pages readyProvider (fun _ => .error "x")
        (.ok ⟨[⟨⟨some "   \n\t  "⟩⟩]⟩) [] = .ok []
  ∧ extract_fields readyProvider (fun _ => .error "x")
        (.ok ⟨[⟨⟨some "   \n\t  "⟩⟩]⟩) (.obj [])
      = .ok ⟨[], .arr [.str "Mistral API returned whitespace-only content"]⟩ := by
  have h := c6_whitespace_content readyProvider (fun _ => .error "x") [] (.obj []) rfl rfl
  exact ⟨h.1, h.2.2.1⟩

/-- Witness for C8: a null-content response keeps the page entry with a
null summary. -/
theorem c8_witness :
    summarize_pages readyProvider (fun _ => .ok ⟨[⟨⟨none⟩⟩]⟩) [⟨.num 1, "t"⟩]
      = .ok [⟨.num 1, JValue.null⟩] := by
  have h := c8_summarize_decode_failures readyProvider (fun _ => .ok ⟨[⟨⟨none⟩⟩]⟩)
    [⟨.num 1, "t"⟩] 0 ⟨.num 1, "t"⟩ rfl rfl
  rw [h.1]
  rfl
